import Mathlib

/-!
Shallow embedding of the primer specificity classification core of
`find_differential_primers.py` (data model, filter chain, cross-amplification
matrix builder, classifier, report assembly), together with theorems checking
the natural-language specification against it.

Conventions of the embedding:
- Python dictionaries of primers (`gd.primers`, iterated via `.values()`) are
  modelled as a `List Primer` in iteration order.
- Python `set` attributes are modelled as `Finset String`.
- An attribute that the loader never initialises
  (`negative_control_amplimers`) is an `Option Nat`, `none` when absent;
  reading it when absent is Python's `AttributeError`, modelled by an
  `Except String` result.
- The global mutable `options` object is an explicit `Options` record holding
  the fields that the classification core reads.
-/

/-- A primer record.  Mirrors the ad hoc attributes that `load_primers`
installs on each `Bio.Emboss.Primer3` primer object (lines 780-794), plus the
sequence payload the filters read.  `oligo` is the internal hybridisation
oligo sequence, absent when ePrimer3 produced none. -/
structure Primer where
  name : String
  forward_seq : String
  reverse_seq : String
  oligo : Option String
  cds_overlap : Bool
  gc3primevalid : Bool
  oligovalid : Bool
  blastpass : Bool
  negative_control_amplimers : Option Nat
  amplifies_organism : Finset String
  amplifies_family : Finset String
deriving DecidableEq

/-- A sample ("GenomeData" object): name, declared families, and its primer
collection in dictionary iteration order. -/
structure GenomeData where
  name : String
  families : List String
  primers : List Primer
deriving DecidableEq

/-- The global option state read by the classification core:
`options.nocds`, `options.filtergc3prime`, `options.hybridprobe` and the
truthiness of `options.single_product`. -/
structure Options where
  nocds : Bool
  filtergc3prime : Bool
  hybridprobe : Bool
  single_product : Bool
deriving DecidableEq

/-- Defaults installed by `load_primers` (lines 783-789): `cds_overlap = False`, empty
amplification sets, `gc3primevalid = oligovalid = blastpass = True`.  No
default is assigned to `negative_control_amplimers`, hence `none`. -/
def load_primer (name forward_seq reverse_seq : String)
    (oligo : Option String) : Primer :=
  { name := name
    forward_seq := forward_seq
    reverse_seq := reverse_seq
    oligo := oligo
    cds_overlap := false
    gc3primevalid := true
    oligovalid := true
    blastpass := true
    negative_control_amplimers := none
    amplifies_organism := ∅
    amplifies_family := ∅ }

/-! ## Classifier: `GenomeData.get_*` methods (lines 245-332) -/

/-- Base selection of `get_primers_amplify_count` (lines 305-306): primers
whose `amplifies_organism` set has exactly `count` elements. -/
def amplify_base (gd : GenomeData) (count : Nat) : List Primer :=
  gd.primers.filter (fun p => decide (count = p.amplifies_organism.card))

/-- Base selection of `get_family_unique_primers` (lines 266-269): primers
with `family_members == set([self.name]).union(p.amplifies_organism)`. -/
def family_unique_base (gd : GenomeData) (family_members : Finset String) :
    List Primer :=
  gd.primers.filter
    (fun p => decide (family_members = insert gd.name p.amplifies_organism))

/-- The four boolean-flag filters applied, in source order, atop a base
selection: `cds_overlap` argument, `options.filtergc3prime`, `oligovalid`
argument, `blastfilter` argument (lines 309-324 and 272-287). -/
def applyFlagFilters (opts : Options)
    (cds_overlap oligovalid blastfilter : Bool)
    (l : List Primer) : List Primer :=
  let l1 := if cds_overlap then l.filter (fun p => p.cds_overlap) else l
  let l2 := if opts.filtergc3prime then l1.filter (fun p => p.gc3primevalid)
            else l1
  let l3 := if oligovalid then l2.filter (fun p => p.oligovalid) else l2
  if blastfilter then l3.filter (fun p => p.blastpass) else l3

/-- The single-product filter comprehension
`[p for p in primerlist if p.negative_control_amplimers == 1]`
(lines 325-329): reading `negative_control_amplimers` on a primer where it was
never assigned raises `AttributeError`. -/
def filterSingleProduct : List Primer → Except String (List Primer)
  | [] => Except.ok []
  | p :: ps =>
    match p.negative_control_amplimers with
    | none => Except.error "AttributeError"
    | some n =>
      match filterSingleProduct ps with
      | Except.error e => Except.error e
      | Except.ok rest => Except.ok (if n = 1 then p :: rest else rest)

/-- Guard `if options.single_product:` around the single-product filter. -/
def runSingleProduct (opts : Options) (l : List Primer) :
    Except String (List Primer) :=
  if opts.single_product then filterSingleProduct l else Except.ok l

/-- Method `GenomeData.get_primers_amplify_count(count, cds_overlap, oligovalid,
blastfilter)` (lines 297-332). -/
def get_primers_amplify_count (opts : Options) (gd : GenomeData) (count : Nat)
    (cds_overlap oligovalid blastfilter : Bool) :
    Except String (List Primer) :=
  runSingleProduct opts
    (applyFlagFilters opts cds_overlap oligovalid blastfilter
      (amplify_base gd count))

/-- Method `GenomeData.get_unique_primers(cds_overlap, oligovalid, blastfilter)`
(lines 245-254): delegates to `get_primers_amplify_count` with count 0. -/
def get_unique_primers (opts : Options) (gd : GenomeData)
    (cds_overlap oligovalid blastfilter : Bool) :
    Except String (List Primer) :=
  get_primers_amplify_count opts gd 0 cds_overlap oligovalid blastfilter

/-- Method `GenomeData.get_family_unique_primers(family_members, cds_overlap,
oligovalid, blastfilter)` (lines 256-295). -/
def get_family_unique_primers (opts : Options) (gd : GenomeData)
    (family_members : Finset String)
    (cds_overlap oligovalid blastfilter : Bool) :
    Except String (List Primer) :=
  runSingleProduct opts
    (applyFlagFilters opts cds_overlap oligovalid blastfilter
      (family_unique_base gd family_members))

/-! ## Report writer classification calls (`write_report`, lines 1274-1374) -/

/-- The family membership map built at lines 1292-1295:
`families[family] = {gd.name : family in gd.families}`. -/
def familyMembers (gdlist : List GenomeData) (family : String) :
    Finset String :=
  ((gdlist.filter (fun gd => gd.families.contains family)).map
    (fun gd => gd.name)).toFinset

/-- Line 1337: `gd.get_unique_primers(cds_overlap, blastfilter)`.  The two
arguments are positional, so `blastfilter` is received as the `oligovalid`
parameter and the `blastfilter` parameter keeps its default `False`. -/
def report_unique (opts : Options) (blastfilter : Bool) (gd : GenomeData) :
    Except String (List Primer) :=
  get_unique_primers opts gd (!opts.nocds) blastfilter false

/-- Lines 1343-1345: `gd.get_family_unique_primers(families[family],
cds_overlap, blastfilter)`; again `blastfilter` fills the `oligovalid` slot. -/
def report_family_unique (opts : Options) (gdlist : List GenomeData)
    (blastfilter : Bool) (gd : GenomeData) (family : String) :
    Except String (List Primer) :=
  get_family_unique_primers opts gd (familyMembers gdlist family)
    (!opts.nocds) blastfilter false

/-- Lines 1348-1350: `gd.get_primers_amplify_count(other_org_count,
cds_overlap, blastfilter)` with `other_org_count = len(gdlist) - 1`;
`blastfilter` fills the `oligovalid` slot. -/
def report_universal (opts : Options) (gdlist : List GenomeData)
    (blastfilter : Bool) (gd : GenomeData) : Except String (List Primer) :=
  get_primers_amplify_count opts gd (gdlist.length - 1) (!opts.nocds)
    blastfilter false

/-- The `all_universal_primers` accumulator of lines 1319 and 1351: the
concatenation, over the whole collection, of each sample's universal set. -/
def all_universal_primers (opts : Options) (gdlist : List GenomeData)
    (blastfilter : Bool) : Except String (List Primer) :=
  gdlist.foldl
    (fun acc gd =>
      match acc, report_universal opts gdlist blastfilter gd with
      | Except.ok l, Except.ok u => Except.ok (l ++ u)
      | Except.error e, _ => Except.error e
      | _, Except.error e => Except.error e)
    (Except.ok [])

/-- The record list written to `universal_primers.eprimer3` at lines
1372-1374: the loop variable `universal_primers`, i.e. the universal set of
the LAST GenomeData object of the loop (unbound when the list is empty). -/
def universal_export (opts : Options) (gdlist : List GenomeData)
    (blastfilter : Bool) : Except String (List Primer) :=
  match gdlist.getLast? with
  | some gd => report_universal opts gdlist blastfilter gd
  | none => Except.error "NameError"

/-! ## Filter chain: 3-prime GC filter (`filter_primers_gc_3prime`,
lines 866-881) -/

/-- Python slice `seq[-5:]`: the last five characters, or the whole string
when it is shorter. -/
def last5 (s : String) : List Char :=
  s.data.drop (s.data.length - 5)

/-- Function `filter_primers_gc_3prime(gd)` (lines 866-881), embedded exactly as
written: the condition is
`(fseq.count('C') + fseq.count('G') > 2) or
 (rseq.count('C') + fseq.count('G') > 2)`;
note the second disjunct reads `fseq`, the forward sequence slice, for its G
count. -/
def filter_primers_gc_3prime (gd : GenomeData) : GenomeData :=
  { gd with primers := gd.primers.map (fun primer =>
      let fseq := last5 primer.forward_seq
      let rseq := last5 primer.reverse_seq
      if fseq.count 'C' + fseq.count 'G' > 2 ∨
          rseq.count 'C' + fseq.count 'G' > 2 then
        { primer with gc3primevalid := false }
      else primer) }

/-! ## Filter chain: internal oligo filter (`filter_primers_oligo`,
lines 885-905) -/

/-- Python's non-overlapping `str.count("CC")`, scanning left to right. -/
def countCC : List Char → Nat
  | 'C' :: 'C' :: rest => 1 + countCC rest
  | _ :: rest => countCC rest
  | [] => 0

/-- The oligo rejection condition of lines 898-901, evaluated left to right
with short-circuiting:
`seq.startswith('G') or seq.endswith('G') or seq[1:-1].count('CC') > 1
 or seq[1] == 'G'`.
Returns `none` when evaluation itself fails: `seq[1]` raises `IndexError`
on a string of fewer than two characters when the first three tests are
false. -/
def oligoBad (s : List Char) : Option Bool :=
  if s.head? = some 'G' then some true
  else if s.getLast? = some 'G' then some true
  else if countCC ((s.drop 1).dropLast) > 1 then some true
  else
    match s.get? 1 with
    | some c => some (c == 'G')
    | none => none

/-- One pass of the loop of `filter_primers_oligo` over `gd.primers.values()`
(lines 897-903).  A primer without an `oligo` attribute raises
`AttributeError` when `primer.oligo.seq` is read; a condition that raises
`IndexError` likewise aborts.  Because the loop mutates the dictionary in
place, primers visited before the exception keep their computed flags while
the failing primer and all later ones are left untouched.  Returns the primer
list after the loop together with the exception, if one was raised. -/
def oligoStep : List Primer → List Primer × Option String
  | [] => ([], none)
  | p :: ps =>
    match p.oligo with
    | none => (p :: ps, some "AttributeError")
    | some s =>
      match oligoBad s.data with
      | none => (p :: ps, some "IndexError")
      | some b =>
        let p' := if b then { p with oligovalid := false } else p
        let rest := oligoStep ps
        (p' :: rest.1, rest.2)

/-- Function `filter_primers_oligo(gd)`: the state of the GenomeData object after the
loop, paired with the exception that escaped it, if any. -/
def filter_primers_oligo (gd : GenomeData) : GenomeData × Option String :=
  let r := oligoStep gd.primers
  ({ gd with primers := r.1 }, r.2)

/-! ## Cross-amplification matrix builder (`classify_primers`,
lines 1215-1270) -/

/-- One PrimerSearch result file as consumed by `classify_primers`:
the target name parsed from the filename (lines 1237-1239), whether the
filename contains the substring `negative_control` (line 1258), and the
parsed `psdata.amplifiers` mapping of primer name to number of amplimers, in
iteration order. -/
structure ResultSet where
  targetname : String
  negctl : Bool
  amplifiers : List (String × Nat)
deriving DecidableEq

/-- Statement `for family in gddict[targetname].families:
      gd.primers[pname].amplifies_family.add(family)` (lines 1255-1256). -/
def addFamilies (families : List String) (s : Finset String) :
    Finset String :=
  families.foldl (fun acc f => insert f acc) s

/-- The two mutations of lines 1254-1256 on one primer: add the target name
to `amplifies_organism` and each of the target's families to
`amplifies_family`. -/
def amplifyUpdate (targetname : String) (targetFamilies : List String)
    (p : Primer) : Primer :=
  { p with
    amplifies_organism := insert targetname p.amplifies_organism
    amplifies_family := addFamilies targetFamilies p.amplifies_family }

/-- The loop of lines 1251-1256 over `psdata.amplifiers.items()`: an entry
with at least one amplimer updates the primer of that name via
`gd.primers[pname]`, which raises `KeyError` when the name is not a key of
the primer dictionary. -/
def classify_apply (targetname : String) (targetFamilies : List String) :
    List Primer → List (String × Nat) → Except String (List Primer)
  | primers, [] => Except.ok primers
  | primers, (pname, c) :: rest =>
    if 0 < c then
      if primers.any (fun p => p.name == pname) then
        classify_apply targetname targetFamilies
          (primers.map (fun p =>
            if p.name = pname then amplifyUpdate targetname targetFamilies p
            else p))
          rest
      else Except.error "KeyError"
    else classify_apply targetname targetFamilies primers rest

/-- The loop of lines 1263-1264 over the negative-control amplifiers:
`gd.primers[pname].negative_control_amplimers = len(pdata)`, assigned for
every reported primer regardless of the count; `KeyError` on an unknown
primer name. -/
def negApply : List Primer → List (String × Nat) → Except String (List Primer)
  | primers, [] => Except.ok primers
  | primers, (pname, c) :: rest =>
    if primers.any (fun p => p.name == pname) then
      negApply
        (primers.map (fun p =>
          if p.name = pname then
            { p with negative_control_amplimers := some c }
          else p))
        rest
    else Except.error "KeyError"

/-- Processing of one result file of `gd.primersearch_output` inside
`classify_primers` (lines 1234-1266): a target in the known collection
(`targetname in gddict`, the dictionary keyed by each GenomeData name) feeds
the amplification sets; otherwise a negative-control file feeds
`negative_control_amplimers`; any other file is skipped. -/
def processResultSet (gdlist : List GenomeData) (gd : GenomeData)
    (rs : ResultSet) : Except String GenomeData :=
  match gdlist.find? (fun g => g.name == rs.targetname) with
  | some target =>
    match classify_apply rs.targetname target.families gd.primers
        rs.amplifiers with
    | Except.ok ps => Except.ok { gd with primers := ps }
    | Except.error e => Except.error e
  | none =>
    if rs.negctl then
      match negApply gd.primers rs.amplifiers with
      | Except.ok ps => Except.ok { gd with primers := ps }
      | Except.error e => Except.error e
    else Except.ok gd

/-! ## Concrete fixtures used to evaluate the embedded code -/

/-- Option state with every optional filter inactive and no CDS
restriction. -/
def opts0 : Options :=
  { nocds := true, filtergc3prime := false, hybridprobe := false
    single_product := false }

/-- A freshly loaded primer that failed the BLAST screen
(`parse_blast` set `blastpass = False`) and amplifies nothing else. -/
def pBlastFail : Primer :=
  { load_primer "A_primer_0001" "ACGTACGTAT" "TGCATGCAAT" none with
      blastpass := false }

/-- Sample holding only `pBlastFail`. -/
def gdBlast : GenomeData :=
  { name := "A", families := ["F1"], primers := [pBlastFail] }

/-- A primer whose reverse sequence ends in five G bases while its forward
sequence has a GC-free 3-prime end. -/
def pRevGC : Primer :=
  load_primer "A_primer_0001" "ATATATATAT" "ATATAGGGGG" none

/-- Sample holding only `pRevGC`. -/
def gdRevGC : GenomeData :=
  { name := "A", families := [], primers := [pRevGC] }

/-- A freshly loaded primer with all flags at their defaults and an empty
amplification set. -/
def pPlain : Primer :=
  load_primer "A_primer_0001" "ATATATATAT" "TATATATATA" none

/-- A single-sample collection holding only `pPlain`. -/
def gdSolo : GenomeData :=
  { name := "A", families := [], primers := [pPlain] }

/-- A primer of sample `A` that amplifies sample `B`, the one other sample
of the two-sample collection below. -/
def pUniv : Primer :=
  { load_primer "A_primer_0001" "ATATATATAT" "TATATATATA" none with
      amplifies_organism := {"B"} }

/-- Sample `A` of the two-sample collection: holds the universal primer
`pUniv`. -/
def gdUnivA : GenomeData :=
  { name := "A", families := [], primers := [pUniv] }

/-- Sample `B` of the two-sample collection: holds no primers at all. -/
def gdUnivB : GenomeData :=
  { name := "B", families := [], primers := [] }

/-! ## Claim theorems -/

/-- Claim C1: the claim states that, with the BLAST off-target filter active,
every primer with `blastpass = False` is excluded from every classification
query issued by `write_report`.  The code refutes this: `write_report` passes
`blastfilter` positionally into the `oligovalid` parameter slot of the three
getters, so with the BLAST filter active the primer `pBlastFail`, which
failed the BLAST screen but has `oligovalid = True`, is returned by the
unique-primers query. -/
theorem c1_blastfail_primer_not_excluded :
    report_unique opts0 true gdBlast = Except.ok [pBlastFail] ∧
      pBlastFail.blastpass = false := by
  constructor
  · rfl
  · rfl

/-- Claim C2: the claim states the flag is cleared when the reverse
sequence's last five bases hold more than two G+C.  The code refutes this:
for `pRevGC` the reverse 3-prime end has five G+C, yet
`filter_primers_gc_3prime` leaves `gc3primevalid` true, because its second
disjunct counts the G bases of the forward slice
(`rseq.count('C') + fseq.count('G')`). -/
theorem c2_reverse_gc_end_not_flagged :
    (last5 pRevGC.reverse_seq).count 'G' +
        (last5 pRevGC.reverse_seq).count 'C' = 5 ∧
      (filter_primers_gc_3prime gdRevGC).primers.map
          (fun p => p.gc3primevalid) = [true] := by
  constructor
  · rfl
  · rfl

/-- Claim C4, counterexample: the claim states `universal(S)` is empty
whenever the collection has fewer than 2 samples.  In the code,
`write_report` queries `get_primers_amplify_count` with
`other_org_count = len(gdlist) - 1 = 0` for a singleton collection, which
returns every passing primer whose amplification set is empty: for the
one-sample collection `[gdSolo]` the universal query returns `[pPlain]`,
not the empty list. -/
theorem c4_singleton_universal_nonempty :
    [gdSolo].length < 2 ∧
      report_universal opts0 [gdSolo] false gdSolo = Except.ok [pPlain] ∧
      ([pPlain] : List Primer) ≠ [] := by
  refine ⟨by decide, rfl, by decide⟩

/-- Claim C4, amended: for a single-sample collection the universal query of
`write_report` coincides with its unique-primers query (count 0), rather
than being empty. -/
theorem c4_singleton_universal_eq_unique (opts : Options) (blastfilter : Bool)
    (gd : GenomeData) :
    report_universal opts [gd] blastfilter gd =
      report_unique opts blastfilter gd := rfl

/-- Claim C9: the claim states the universal primer export contains one
record for every primer classified universal over all samples.  The code
refutes this: `write_report` accumulates `all_universal_primers` but writes
the loop variable `universal_primers`, the universal set of the last sample
only.  For the collection `[gdUnivA, gdUnivB]`, primer `pUniv` of sample `A`
is classified universal, yet the exported record list is empty. -/
theorem c9_universal_export_misses_primer :
    all_universal_primers opts0 [gdUnivA, gdUnivB] false =
        Except.ok [pUniv] ∧
      universal_export opts0 [gdUnivA, gdUnivB] false =
        Except.ok [] := by
  constructor
  · rfl
  · rfl

/-- For a name inside the member set and outside the amplification set,
the code's membership test `family_members == {self.name} ∪ amplifies` is
equivalent to the spec's `amplifies == family_members − {self.name}`. -/
lemma insert_eq_iff_sdiff (name : String) (members amp : Finset String)
    (h1 : name ∈ members) (h2 : name ∉ amp) :
    members = insert name amp ↔ amp = members \ {name} := by
  constructor
  · intro h
    rw [h, Finset.sdiff_singleton_eq_erase, Finset.erase_insert h2]
  · intro h
    rw [h, Finset.sdiff_singleton_eq_erase, Finset.insert_erase h1]

/-- Claim C3: when the sample belongs to the family and none of its primers
record the sample's own name, the pre-filter selection of
`get_family_unique_primers` consists of exactly the primers whose
`amplifies_organism` set equals the family membership minus the sample's own
name. -/
theorem c3_family_unique_base_exact (gd : GenomeData)
    (members : Finset String)
    (h1 : gd.name ∈ members)
    (h2 : ∀ p ∈ gd.primers, gd.name ∉ p.amplifies_organism) :
    family_unique_base gd members =
      gd.primers.filter
        (fun p => decide (p.amplifies_organism = members \ {gd.name})) := by
  unfold family_unique_base
  apply List.filter_congr
  intro p hp
  rw [decide_eq_decide]
  exact insert_eq_iff_sdiff gd.name members p.amplifies_organism h1 (h2 p hp)

/-- Sample of name `A` in family `FAB` together with sample `B`; its only
primer amplifies exactly `B`. -/
def gdFam : GenomeData :=
  { name := "A", families := ["FAB"]
    primers := [{ load_primer "A_primer_0001" "ATATATATAT" "TATATATATA" none
                    with amplifies_organism := {"B"} }] }

/-- Witness for claim C3 at the concrete sample `gdFam` and member set
`{A, B}`: the hypotheses hold and the selection equals the primers whose
amplification set is exactly `{A, B} − {A} = {B}`. -/
theorem c3_witness :
    (gdFam.name ∈ ({"A", "B"} : Finset String) ∧
      ∀ p ∈ gdFam.primers, gdFam.name ∉ p.amplifies_organism) ∧
      family_unique_base gdFam {"A", "B"} =
        gdFam.primers.filter
          (fun p => decide
            (p.amplifies_organism = ({"A", "B"} : Finset String) \
              {gdFam.name})) :=
  ⟨⟨by decide, by decide⟩,
    c3_family_unique_base_exact gdFam {"A", "B"} (by decide) (by decide)⟩

/-- Claim C6: when a family's membership is exactly the sample's own name
and, per the data model, no primer of the sample records the sample's own
name among the organisms it amplifies, the family-unique query coincides
with the unique query under every filter configuration. -/
theorem c6_single_member_family_eq_unique (opts : Options) (gd : GenomeData)
    (cds_overlap oligovalid blastfilter : Bool)
    (h : ∀ p ∈ gd.primers, gd.name ∉ p.amplifies_organism) :
    get_family_unique_primers opts gd {gd.name} cds_overlap oligovalid
        blastfilter =
      get_unique_primers opts gd cds_overlap oligovalid blastfilter := by
  have hbase : family_unique_base gd {gd.name} = amplify_base gd 0 := by
    unfold family_unique_base amplify_base
    apply List.filter_congr
    intro p hp
    rw [decide_eq_decide]
    constructor
    · intro heq
      have hamp : p.amplifies_organism = ∅ := by
        have := (insert_eq_iff_sdiff gd.name {gd.name} p.amplifies_organism
          (Finset.mem_singleton_self _) (h p hp)).mp heq
        simpa [Finset.sdiff_self] using this
      simp [hamp]
    · intro hc
      have hamp : p.amplifies_organism = ∅ :=
        Finset.card_eq_zero.mp hc.symm
      simp [hamp]
  unfold get_family_unique_primers get_unique_primers
    get_primers_amplify_count
  rw [hbase]

/-- Sample whose sole family is itself; its only primer amplifies nothing. -/
def gdSelf : GenomeData :=
  { name := "A", families := ["FA"]
    primers := [load_primer "A_primer_0001" "ATATATATAT" "TATATATATA" none] }

/-- Witness for claim C6 at the concrete sample `gdSelf` with the BLAST and
GC filters active: the no-self-amplification hypothesis holds and the two
queries agree. -/
theorem c6_witness :
    (∀ p ∈ gdSelf.primers, gdSelf.name ∉ p.amplifies_organism) ∧
      get_family_unique_primers
          { nocds := false, filtergc3prime := true, hybridprobe := false
            single_product := false } gdSelf {gdSelf.name} true false true =
        get_unique_primers
          { nocds := false, filtergc3prime := true, hybridprobe := false
            single_product := false } gdSelf true false true :=
  ⟨by decide,
    c6_single_member_family_eq_unique
      { nocds := false, filtergc3prime := true, hybridprobe := false
        single_product := false } gdSelf true false true (by decide)⟩

/-- The single-product comprehension raises as soon as any primer it reaches
lacks the `negative_control_amplimers` attribute. -/
lemma filterSingleProduct_error (l : List Primer)
    (h : ∃ p ∈ l, p.negative_control_amplimers = none) :
    ∃ e, filterSingleProduct l = Except.error e := by
  induction l with
  | nil => simp at h
  | cons p ps ih =>
    cases hn : p.negative_control_amplimers with
    | none => exact ⟨"AttributeError", by simp [filterSingleProduct, hn]⟩
    | some n =>
      obtain ⟨q, hq, hqn⟩ := h
      rcases List.mem_cons.mp hq with rfl | hq2
      · rw [hn] at hqn
        exact absurd hqn (by simp)
      · obtain ⟨e, he⟩ := ih ⟨q, hq2, hqn⟩
        exact ⟨e, by simp [filterSingleProduct, hn, he]⟩

/-- Claim C10: primer records are loaded with no
`negative_control_amplimers` value, and with the single-product filter
active every classification query whose surviving candidate list reaches
such a primer aborts with an attribute-lookup error instead of returning a
primer list. -/
theorem c10_missing_negctl_count_errors (opts : Options) (gd : GenomeData)
    (count : Nat) (members : Finset String)
    (cds_overlap oligovalid blastfilter : Bool)
    (hsp : opts.single_product = true) :
    ((∃ p ∈ applyFlagFilters opts cds_overlap oligovalid blastfilter
        (amplify_base gd count), p.negative_control_amplimers = none) →
      ∃ e, get_primers_amplify_count opts gd count cds_overlap oligovalid
        blastfilter = Except.error e) ∧
    ((∃ p ∈ applyFlagFilters opts cds_overlap oligovalid blastfilter
        (family_unique_base gd members),
        p.negative_control_amplimers = none) →
      ∃ e, get_family_unique_primers opts gd members cds_overlap oligovalid
        blastfilter = Except.error e) ∧
    (∀ name fseq rseq og,
      (load_primer name fseq rseq og).negative_control_amplimers = none) := by
  refine ⟨fun h => ?_, fun h => ?_, fun name fseq rseq og => rfl⟩
  · obtain ⟨e, he⟩ := filterSingleProduct_error _ h
    exact ⟨e, by simp [get_primers_amplify_count, runSingleProduct, hsp, he]⟩
  · obtain ⟨e, he⟩ := filterSingleProduct_error _ h
    exact ⟨e, by simp [get_family_unique_primers, runSingleProduct, hsp, he]⟩

/-- Option state with only the single-product filter active. -/
def optsSP : Options :=
  { nocds := true, filtergc3prime := false, hybridprobe := false
    single_product := true }

/-- Witness for claim C10 at the concrete sample `gdSolo`, whose only primer
is freshly loaded (so its `negative_control_amplimers` is absent): the
single-product flag is set and the conclusion holds there. -/
theorem c10_witness :
    optsSP.single_product = true ∧
      (((∃ p ∈ applyFlagFilters optsSP false false false
          (amplify_base gdSolo 0), p.negative_control_amplimers = none) →
        ∃ e, get_primers_amplify_count optsSP gdSolo 0 false false false =
          Except.error e) ∧
      ((∃ p ∈ applyFlagFilters optsSP false false false
          (family_unique_base gdSolo {"A"}),
          p.negative_control_amplimers = none) →
        ∃ e, get_family_unique_primers optsSP gdSolo {"A"} false false
          false = Except.error e) ∧
      (∀ name fseq rseq og,
        (load_primer name fseq rseq og).negative_control_amplimers =
          none)) :=
  ⟨rfl, c10_missing_negctl_count_errors optsSP gdSolo 0 {"A"} false false false
    rfl⟩

/-- A primer carrying no internal oligo. -/
def pNoOligo : Primer :=
  load_primer "A_primer_0002" "ATATATATAT" "TATATATATA" none

/-- A primer whose internal oligo starts with G, violating the oligo shape
rules. -/
def pBadOligo : Primer :=
  load_primer "A_primer_0003" "ATATATATAT" "TATATATATA" (some "GAAA")

/-- A primer whose internal oligo passes every oligo shape rule. -/
def pGoodOligo : Primer :=
  load_primer "A_primer_0001" "ATATATATAT" "TATATATATA" (some "ATCA")

/-- Sample whose first primer lacks an oligo and whose second primer has an
invalid oligo. -/
def gdOligo : GenomeData :=
  { name := "A", families := [], primers := [pNoOligo, pBadOligo] }

/-- Claim C8, counterexample: the claim states a primer without an internal
oligo is skipped for the oligo filter only, the run does not fail, and every
other primer still gets its `oligovalid` flag computed.  On `gdOligo` the
code refutes all of it: reading `primer.oligo.seq` on the oligo-less first
primer raises `AttributeError`, and the second primer, whose oligo starts
with G and should be marked invalid, keeps `oligovalid = true` because the
loop died before reaching it. -/
theorem c8_no_oligo_aborts_run :
    (filter_primers_oligo gdOligo).2 = some "AttributeError" ∧
      (filter_primers_oligo gdOligo).1.primers.map (fun p => p.oligovalid) =
        [true, true] := by
  constructor
  · rfl
  · rfl

/-- When the loop of `filter_primers_oligo` processes a prefix without
raising and then meets a primer with no oligo, the prefix keeps its computed
flags, the rest of the list is untouched, and `AttributeError` escapes. -/
lemma oligoStep_append_none (l1 : List Primer) (p : Primer)
    (l2 : List Primer) (hnone : p.oligo = none)
    (hok : (oligoStep l1).2 = none) :
    oligoStep (l1 ++ p :: l2) =
      ((oligoStep l1).1 ++ p :: l2, some "AttributeError") := by
  induction l1 with
  | nil => simp [oligoStep, hnone]
  | cons q l1 ih =>
    cases ho : q.oligo with
    | none => simp [oligoStep, ho] at hok
    | some s =>
      cases hb : oligoBad s.data with
      | none => simp [oligoStep, ho, hb] at hok
      | some b =>
        simp only [oligoStep, ho, hb] at hok
        simp [oligoStep, ho, hb, ih hok]

/-- Claim C8, amended: when the internal-oligo filter reaches a primer with
no internal oligo, the attribute lookup fails and the exception propagates
out of the filter (the run fails); primers visited earlier keep their
computed `oligovalid` flags and primers from the failing one onward are left
unchanged. -/
theorem c8_amended_no_oligo_error (gd : GenomeData) (l1 l2 : List Primer)
    (p : Primer) (hsplit : gd.primers = l1 ++ p :: l2)
    (hnone : p.oligo = none) (hok : (oligoStep l1).2 = none) :
    filter_primers_oligo gd =
      ({ gd with primers := (oligoStep l1).1 ++ p :: l2 },
        some "AttributeError") := by
  unfold filter_primers_oligo
  rw [hsplit, oligoStep_append_none l1 p l2 hnone hok]

/-- Sample placing a valid-oligo primer before the oligo-less one. -/
def gdOligo3 : GenomeData :=
  { name := "A", families := []
    primers := [pGoodOligo, pNoOligo, pBadOligo] }

/-- Witness for the amended claim C8 at the concrete sample `gdOligo3`: the
split, missing-oligo and clean-prefix hypotheses hold, and the filter
returns the prefix processed, the tail untouched, and the
`AttributeError`. -/
theorem c8_witness :
    (gdOligo3.primers = [pGoodOligo] ++ pNoOligo :: [pBadOligo] ∧
      pNoOligo.oligo = none ∧ (oligoStep [pGoodOligo]).2 = none) ∧
      filter_primers_oligo gdOligo3 =
        ({ gdOligo3 with
            primers := (oligoStep [pGoodOligo]).1 ++ pNoOligo ::
              [pBadOligo] }, some "AttributeError") :=
  ⟨⟨rfl, rfl, rfl⟩,
    c8_amended_no_oligo_error gdOligo3 [pGoodOligo] [pBadOligo] pNoOligo
      rfl rfl rfl⟩

/-! ## Idempotence of the matrix builder (claims C5 and C7) -/

/-- Whether one amplifier entry of a result set hits a given primer: the
entry reports at least one amplimer and names the primer. -/
def ampHit (p : Primer) (e : String × Nat) : Bool :=
  decide (0 < e.2) && decide (p.name = e.1)

/-- Pointwise effect of the amplifier loop of one in-collection result set
on a single primer. -/
def pApply (t : String) (f : List String) :
    Primer → List (String × Nat) → Primer
  | p, [] => p
  | p, (pname, c) :: rest =>
    pApply t f
      (if 0 < c then
        (if p.name = pname then amplifyUpdate t f p else p)
      else p) rest

/-- Folding `addFamilies` is union with the family list. -/
lemma addFamilies_eq (l : List String) (s : Finset String) :
    addFamilies l s = s ∪ l.toFinset := by
  induction l generalizing s with
  | nil => simp [addFamilies]
  | cons a l ih =>
    show addFamilies l (insert a s) = s ∪ (a :: l).toFinset
    rw [ih, List.toFinset_cons, Finset.insert_union, Finset.union_insert]

/-- The per-primer mutation of the matrix builder is idempotent: both
`set.add` and the family-loop adds are unions. -/
lemma amplifyUpdate_idem (t : String) (f : List String) (p : Primer) :
    amplifyUpdate t f (amplifyUpdate t f p) = amplifyUpdate t f p := by
  simp [amplifyUpdate, addFamilies_eq, Finset.insert_idem,
    Finset.union_assoc]

/-- The matrix-builder mutation never renames a primer. -/
lemma amplifyUpdate_name (t : String) (f : List String) (p : Primer) :
    (amplifyUpdate t f p).name = p.name := rfl

/-- Applying `pApply` never renames a primer. -/
lemma pApply_name (t : String) (f : List String) :
    ∀ (amps : List (String × Nat)) (p : Primer),
      (pApply t f p amps).name = p.name := by
  intro amps
  induction amps with
  | nil => intro p; rfl
  | cons e rest ih =>
    intro p
    obtain ⟨pname, c⟩ := e
    simp only [pApply]
    rw [ih]
    split_ifs <;> rfl

/-- Predicate `ampHit` only reads a primer's name. -/
lemma ampHit_name_eq (q p : Primer) (h : q.name = p.name) :
    ampHit q = ampHit p :=
  funext fun e => by simp [ampHit, h]

/-- Closed form of `pApply`: a primer hit by at least one entry of the
result set receives the update once; any other primer is untouched. -/
lemma pApply_eq (t : String) (f : List String) :
    ∀ (amps : List (String × Nat)) (p : Primer),
      pApply t f p amps =
        if amps.any (ampHit p) then amplifyUpdate t f p else p := by
  intro amps
  induction amps with
  | nil => intro p; simp [pApply]
  | cons e rest ih =>
    intro p
    obtain ⟨pname, c⟩ := e
    simp only [pApply]
    by_cases hc : 0 < c
    · by_cases hn : p.name = pname
      · simp only [if_pos hc, if_pos hn]
        rw [ih (amplifyUpdate t f p),
          ampHit_name_eq (amplifyUpdate t f p) p rfl, List.any_cons]
        have he : ampHit p (pname, c) = true := by simp [ampHit, hc, hn]
        rw [he, Bool.true_or, if_pos rfl]
        split_ifs with hrest
        · exact amplifyUpdate_idem t f p
        · rfl
      · simp only [if_pos hc, if_neg hn]
        rw [ih p, List.any_cons]
        have he : ampHit p (pname, c) = false := by simp [ampHit, hn]
        rw [he, Bool.false_or]
    · simp only [if_neg hc]
      rw [ih p, List.any_cons]
      have he : ampHit p (pname, c) = false := by
        simp [ampHit, hc]
      rw [he, Bool.false_or]

/-- Applying the pointwise result-set effect twice equals applying it
once. -/
lemma pApply_idem (t : String) (f : List String)
    (amps : List (String × Nat)) (p : Primer) :
    pApply t f (pApply t f p amps) amps = pApply t f p amps := by
  rw [pApply_eq t f amps (pApply t f p amps),
    ampHit_name_eq (pApply t f p amps) p (pApply_name t f amps p)]

  by_cases h : amps.any (ampHit p)
  · rw [if_pos h, pApply_eq t f amps p, if_pos h, amplifyUpdate_idem]
  · rw [if_neg h]

/-- A successful run of the amplifier loop maps each primer through its
pointwise effect. -/
lemma classify_apply_ok (t : String) (f : List String) :
    ∀ (amps : List (String × Nat)) (primers r : List Primer),
      classify_apply t f primers amps = Except.ok r →
      r = primers.map (fun p => pApply t f p amps) := by
  intro amps
  induction amps with
  | nil =>
    intro primers r h
    simp only [classify_apply, Except.ok.injEq] at h
    simp [pApply, ← h]
  | cons e rest ih =>
    obtain ⟨pname, c⟩ := e
    intro primers r h
    by_cases hc : 0 < c
    · simp only [classify_apply, if_pos hc] at h
      by_cases hany : primers.any (fun p => p.name == pname)
      · rw [if_pos hany] at h
        rw [ih _ r h, List.map_map]
        apply List.map_congr_left
        intro p _
        simp [pApply, hc]
      · rw [if_neg hany] at h
        cases h
    · simp only [classify_apply, if_neg hc] at h
      rw [ih primers r h]
      apply List.map_congr_left
      intro p _
      simp [pApply, hc]

/-- Whether the amplifier loop succeeds depends only on the primer names
present, and name lists are preserved by the loop's own updates. -/
lemma classify_apply_ok_names (t : String) (f : List String) :
    ∀ (amps : List (String × Nat)) (ps qs : List Primer),
      ps.map (fun p => p.name) = qs.map (fun p => p.name) →
      (∃ r, classify_apply t f ps amps = Except.ok r) →
      ∃ r2, classify_apply t f qs amps = Except.ok r2 := by
  intro amps
  induction amps with
  | nil => intro ps qs _ _; exact ⟨qs, rfl⟩
  | cons e rest ih =>
    obtain ⟨pname, c⟩ := e
    intro ps qs hn hex
    obtain ⟨r, h⟩ := hex
    by_cases hc : 0 < c
    · simp only [classify_apply, if_pos hc] at h ⊢
      by_cases hany : ps.any (fun p => p.name == pname)
      · have hany2 : qs.any (fun p => p.name == pname) = true := by
          rw [List.any_eq_true] at hany ⊢
          obtain ⟨p, hp, hpe⟩ := hany
          have hmem : pname ∈ qs.map (fun p => p.name) := by
            rw [← hn]
            exact List.mem_map.mpr ⟨p, hp, by simpa using hpe⟩
          obtain ⟨q, hq, hqe⟩ := List.mem_map.mp hmem
          exact ⟨q, hq, by simp [hqe]⟩
        rw [if_pos hany] at h
        rw [if_pos hany2]
        apply ih _ _ ?_ ⟨r, h⟩
        rw [List.map_map, List.map_map]
        have hps : ∀ l : List Primer,
            l.map ((fun p : Primer => p.name) ∘ fun p =>
              if p.name = pname then amplifyUpdate t f p else p) =
              l.map (fun p : Primer => p.name) := by
          intro l
          apply List.map_congr_left
          intro p _
          by_cases hnm : p.name = pname
          · simp [Function.comp, hnm, amplifyUpdate_name]
          · simp [Function.comp, hnm]
        rw [hps, hps, hn]
      · rw [if_neg hany] at h
        cases h
    · simp only [classify_apply, if_neg hc] at h ⊢
      exact ih ps qs hn ⟨r, h⟩

/-- Reduction of `processResultSet` when the target lookup succeeds. -/
lemma processResultSet_target (gdlist : List GenomeData)
    (gd target : GenomeData) (rs : ResultSet)
    (htarget : gdlist.find? (fun g => g.name == rs.targetname) =
      some target) :
    processResultSet gdlist gd rs =
      match classify_apply rs.targetname target.families gd.primers
          rs.amplifiers with
      | Except.ok ps => Except.ok { gd with primers := ps }
      | Except.error e => Except.error e := by
  unfold processResultSet
  rw [htarget]

/-- Claim C5: re-processing the same (query sample, target sample)
PrimerSearch result set is a no-op: a second run of the matrix builder on
its own output returns the same primer state, in particular the same
`amplifies_organism` and `amplifies_family` sets on every primer. -/
theorem c5_matrix_builder_idempotent (gdlist : List GenomeData)
    (gd gd' target : GenomeData) (rs : ResultSet)
    (htarget : gdlist.find? (fun g => g.name == rs.targetname) =
      some target)
    (h : processResultSet gdlist gd rs = Except.ok gd') :
    processResultSet gdlist gd' rs = Except.ok gd' := by
  rw [processResultSet_target gdlist gd target rs htarget] at h
  cases hc : classify_apply rs.targetname target.families gd.primers
      rs.amplifiers with
  | error e => rw [hc] at h; cases h
  | ok ps =>
    rw [hc] at h
    injection h with h2
    subst h2
    rw [processResultSet_target gdlist _ target rs htarget]
    have hps : ps = gd.primers.map
        (fun p => pApply rs.targetname target.families p rs.amplifiers) :=
      classify_apply_ok _ _ _ _ _ hc
    have hnames : ps.map (fun p => p.name) =
        gd.primers.map (fun p => p.name) := by
      rw [hps, List.map_map]
      apply List.map_congr_left
      intro p _
      exact pApply_name _ _ _ p
    obtain ⟨r2, hr2⟩ := classify_apply_ok_names rs.targetname
      target.families rs.amplifiers gd.primers ps hnames.symm ⟨ps, hc⟩
    have hr2eq : r2 = ps := by
      have hchar := classify_apply_ok _ _ _ _ _ hr2
      rw [hchar, hps, List.map_map]
      apply List.map_congr_left
      intro p _
      exact pApply_idem _ _ _ p
    have hproj : ({ gd with primers := ps } : GenomeData).primers = ps :=
      rfl
    rw [hproj, hr2, hr2eq]

/-- Query sample of the idempotence witness: holds one fresh primer. -/
def gdQ : GenomeData :=
  { name := "A", families := ["FA"]
    primers := [load_primer "A_primer_0001" "ATATATATAT" "TATATATATA"
      none] }

/-- Target sample of the idempotence witness. -/
def gdT : GenomeData :=
  { name := "B", families := ["FB"], primers := [] }

/-- Result set of query `A` against target `B`: the primer produced two
amplimers. -/
def rsAB : ResultSet :=
  { targetname := "B", negctl := false
    amplifiers := [("A_primer_0001", 2)] }

/-- State of the query sample after the matrix builder processed `rsAB`. -/
def gdQ2 : GenomeData :=
  { name := "A", families := ["FA"]
    primers := [{ load_primer "A_primer_0001" "ATATATATAT" "TATATATATA"
        none with
      amplifies_organism := {"B"}, amplifies_family := {"FB"} }] }

/-- Witness for claim C5 at a concrete two-sample run: the target lookup
and the first processing round evaluate as assumed, and the second round
reproduces the same state. -/
theorem c5_witness :
    ([gdQ, gdT].find? (fun g => g.name == rsAB.targetname) = some gdT ∧
      processResultSet [gdQ, gdT] gdQ rsAB = Except.ok gdQ2) ∧
      processResultSet [gdQ, gdT] gdQ2 rsAB = Except.ok gdQ2 :=
  ⟨⟨by decide, rfl⟩,
    c5_matrix_builder_idempotent [gdQ, gdT] gdQ gdQ2 gdT rsAB (by decide)
      rfl⟩

/-! ## Frame property of the matrix builder on unknown targets (claim C7) -/

/-- The amplimer count the negative-control loop leaves on a primer of the
given name: the count of the last matching entry, since later assignments
overwrite earlier ones. -/
def lastCount : List (String × Nat) → String → Option Nat
  | [], _ => none
  | (pname, c) :: rest, n =>
    match lastCount rest n with
    | some c2 => some c2
    | none => if pname = n then some c else none

/-- Pointwise effect of the negative-control loop on a single primer. -/
def negPointwise : Primer → List (String × Nat) → Primer
  | p, [] => p
  | p, (pname, c) :: rest =>
    negPointwise
      (if p.name = pname then
        { p with negative_control_amplimers := some c }
      else p) rest

/-- A successful run of the negative-control loop maps each primer through
its pointwise effect. -/
lemma negApply_ok :
    ∀ (amps : List (String × Nat)) (primers r : List Primer),
      negApply primers amps = Except.ok r →
      r = primers.map (fun p => negPointwise p amps) := by
  intro amps
  induction amps with
  | nil =>
    intro primers r h
    simp only [negApply, Except.ok.injEq] at h
    simp [negPointwise, ← h]
  | cons e rest ih =>
    obtain ⟨pname, c⟩ := e
    intro primers r h
    simp only [negApply] at h
    by_cases hany : primers.any (fun p => p.name == pname)
    · rw [if_pos hany] at h
      rw [ih _ r h, List.map_map]
      apply List.map_congr_left
      intro p _
      simp [negPointwise]
    · rw [if_neg hany] at h
      cases h

/-- The attribute write the claim expects on one primer: only
`negative_control_amplimers` changes, receiving the last count reported for
the primer's name when there is one. -/
def negWrite (amps : List (String × Nat)) (p : Primer) : Primer :=
  { p with negative_control_amplimers :=
      (lastCount amps p.name).or p.negative_control_amplimers }

/-- Closed form of the pointwise negative-control effect. -/
lemma negPointwise_eq :
    ∀ (amps : List (String × Nat)) (p : Primer),
      negPointwise p amps = negWrite amps p := by
  intro amps
  induction amps with
  | nil => intro p; simp [negPointwise, negWrite, lastCount]
  | cons e rest ih =>
    obtain ⟨pname, c⟩ := e
    intro p
    simp only [negPointwise]
    by_cases hn : p.name = pname
    · rw [if_pos hn, ih]
      unfold negWrite
      simp only []
      cases hlast : lastCount rest p.name with
      | some c2 =>
        have h1 : lastCount ((pname, c) :: rest) p.name = some c2 := by
          simp [lastCount, hlast]
        rw [h1]
        rfl
      | none =>
        have hlast2 : lastCount rest pname = none := by
          rw [← hn]; exact hlast
        have h1 : lastCount ((pname, c) :: rest) p.name = some c := by
          simp [lastCount, hn, hlast2]
        rw [h1]
        rfl
    · rw [if_neg hn, ih]
      unfold negWrite
      cases hlast : lastCount rest p.name with
      | some c2 =>
        have h1 : lastCount ((pname, c) :: rest) p.name = some c2 := by
          simp [lastCount, hlast]
        rw [h1]
      | none =>
        have h1 : lastCount ((pname, c) :: rest) p.name = none := by
          simp only [lastCount, hlast]
          rw [if_neg (fun hcon => hn hcon.symm)]
        rw [h1]

/-- Reduction of `processResultSet` when the target lookup fails. -/
lemma processResultSet_none (gdlist : List GenomeData) (gd : GenomeData)
    (rs : ResultSet)
    (hnone : gdlist.find? (fun g => g.name == rs.targetname) = none) :
    processResultSet gdlist gd rs =
      (if rs.negctl then
        match negApply gd.primers rs.amplifiers with
        | Except.ok ps => Except.ok { gd with primers := ps }
        | Except.error e => Except.error e
      else Except.ok gd) := by
  unfold processResultSet
  rw [hnone]

/-- Claim C7: a result set whose target is not a known sample leaves every
primer's amplification sets untouched: if it is not the negative-control
set, the sample is returned unchanged; if it is, the only attribute written
is `negative_control_amplimers`, set to the number of amplification
products reported for each named primer. -/
theorem c7_unknown_target_frame (gdlist : List GenomeData)
    (gd gd' : GenomeData) (rs : ResultSet)
    (hunknown : ∀ g ∈ gdlist, g.name ≠ rs.targetname) :
    (rs.negctl = false → processResultSet gdlist gd rs = Except.ok gd) ∧
    (rs.negctl = true → processResultSet gdlist gd rs = Except.ok gd' →
      gd' = { gd with
        primers := gd.primers.map (negWrite rs.amplifiers) }) := by
  have hfind : gdlist.find? (fun g => g.name == rs.targetname) = none := by
    rw [List.find?_eq_none]
    intro g hg
    simpa using hunknown g hg
  constructor
  · intro hneg
    rw [processResultSet_none gdlist gd rs hfind, hneg]
    rfl
  · intro hneg h
    rw [processResultSet_none gdlist gd rs hfind, hneg, if_pos rfl] at h
    cases hna : negApply gd.primers rs.amplifiers with
    | error e => rw [hna] at h; cases h
    | ok ps =>
      rw [hna] at h
      injection h with h2
      rw [← h2, negApply_ok rs.amplifiers gd.primers ps hna]
      congr 1
      apply List.map_congr_left
      intro p _
      exact negPointwise_eq rs.amplifiers p

/-- Sample of the negative-control witness: one fresh primer, no recorded
negative-control count. -/
def gdNC : GenomeData :=
  { name := "A", families := []
    primers := [load_primer "A_primer_0001" "ATATATATAT" "TATATATATA"
      none] }

/-- The negative-control result set of the witness: its parsed target name
`A_negative_control` is no sample name, and the primer produced two
amplimers against the negative control. -/
def rsNC : ResultSet :=
  { targetname := "A_negative_control", negctl := true
    amplifiers := [("A_primer_0001", 2)] }

/-- State of `gdNC` after the negative-control counts are recorded. -/
def gdNC2 : GenomeData :=
  { name := "A", families := []
    primers := [{ load_primer "A_primer_0001" "ATATATATAT" "TATATATATA"
        none with negative_control_amplimers := some 2 }] }

/-- Witness for claim C7 at the concrete negative-control run: the target
is unknown to the collection, and the processed sample carries exactly the
recorded counts. -/
theorem c7_witness :
    (∀ g ∈ [gdNC], g.name ≠ rsNC.targetname) ∧
      ((rsNC.negctl = false →
        processResultSet [gdNC] gdNC rsNC = Except.ok gdNC) ∧
      (rsNC.negctl = true →
        processResultSet [gdNC] gdNC rsNC = Except.ok gdNC2 →
        gdNC2 = { gdNC with
          primers := gdNC.primers.map (negWrite rsNC.amplifiers) })) :=
  ⟨by decide, c7_unknown_target_frame [gdNC] gdNC gdNC2 rsNC (by decide)⟩
